import Mathlib

/-!
Verification development for the ML confidence scorer (ml/scorer.py).

The Python module is embedded shallowly:
  * JSON scalar values become `JVal` (numerics as rationals; the model does
    not track floating-point rounding, infinities or NaN, and `str`/`float`
    conversions of non-integer numeric strings are not parsed — such inputs
    are outside the model).
  * a Python `dict` row becomes an association list `RowD`;
  * fallible Python expressions return `Except String`, mirroring raised
    exceptions and the messages only where a claim depends on them;
  * the classifier library (scikit-learn) is the external capability the
    source treats it as: an opaque `fit` / `predictProba` / `crossValidate`
    triple supplied by the environment.
-/

set_option autoImplicit false

namespace Scorer

instance exceptDecEq {ε α : Type} [DecidableEq ε] [DecidableEq α] :
    DecidableEq (Except ε α) := fun x y =>
  match x, y with
  | .ok a, .ok b =>
    match decEq a b with
    | isTrue h => isTrue (h ▸ rfl)
    | isFalse h => isFalse (fun hc => h (Except.ok.inj hc))
  | .error a, .error b =>
    match decEq a b with
    | isTrue h => isTrue (h ▸ rfl)
    | isFalse h => isFalse (fun hc => h (Except.error.inj hc))
  | .ok _, .error _ => isFalse (fun hc => Except.noConfusion hc)
  | .error _, .ok _ => isFalse (fun hc => Except.noConfusion hc)

/-- Digit-string parsing on the character list (a kernel-reducible stand-in
for the library numeral parser). -/
def parseDigitsAux : List Char → ℕ → Option ℕ
  | [], acc => some acc
  | c :: cs, acc =>
    if c.isDigit then parseDigitsAux cs (acc * 10 + (c.toNat - 48)) else none

/-- Python numeral-string parsing, as used by `int(...)` on strings: an
optional sign followed by decimal digits (surrounding whitespace and digit
underscores are outside the model). -/
def strToInt? (s : String) : Option ℤ :=
  match s.data with
  | [] => none
  | c :: cs =>
    if c = ('-') then
      match cs with
      | [] => none
      | _ => (parseDigitsAux cs 0).map (fun n => -(n : ℤ))
    else (parseDigitsAux (c :: cs) 0).map (fun n => (n : ℤ))

/-- Python `s.startswith(p)`: code-point prefix test. -/
def pyStartsWith (s p : String) : Bool :=
  p.data.isPrefixOf s.data

/-- A JSON scalar value as found in one row of the JSONL data. -/
inductive JVal where
  | num (q : ℚ)
  | str (s : String)
  | bool (b : Bool)
  deriving DecidableEq

/-- A Python dict row: association list from field name to value. -/
def RowD : Type := List (String × JVal)

instance : DecidableEq RowD := by
  unfold RowD
  infer_instance

/-- `row.get(k, d)` on a Python dict. -/
def dgetD (row : RowD) (k : String) (d : JVal) : JVal :=
  (List.lookup k row).getD d

/-- Python `float(v)`.  Fails (raises) on non-numeric strings; integer
numeral strings convert, other numeric strings are outside the model. -/
def pyFloat : JVal → Except String ℚ
  | .num q => Except.ok q
  | .bool b => Except.ok (if b then 1 else 0)
  | .str s =>
    match strToInt? s with
    | some n => Except.ok (n : ℚ)
    | none => Except.error ("could not convert string to float: " ++ s)

/-- Python `int(v)`: truncates a float toward zero; parses integer strings;
fails on anything else. -/
def pyInt : JVal → Except String ℤ
  | .num q => Except.ok (if 0 ≤ q then ⌊q⌋ else ⌈q⌉)
  | .bool b => Except.ok (if b then 1 else 0)
  | .str s =>
    match strToInt? s with
    | some n => Except.ok n
    | none => Except.error ("invalid literal for int: " ++ s)

/-- Python `str(v)`.  The textual form of a numeric differs from CPython's
but never collides with any of the keyword strings the source compares
against (those all start with a letter). -/
def pyStr : JVal → String
  | .str s => s
  | .num q => toString q
  | .bool b => if b then ("True") else ("False")

/-- `REGIME_MAP` from the source. -/
def REGIME_MAP : List (String × ℕ) :=
  [(("quiet"), 0), (("ranging"), 1), (("trending"), 2), (("volatile_trend"), 3)]

/-- `SIDE_MAP` from the source. -/
def SIDE_MAP : List (String × ℕ) :=
  [(("long"), 0), (("short"), 1)]

/-- `RULE_MAP` from the source. -/
def RULE_MAP : List (String × ℕ) :=
  [(("R1-mean-reversion"), 0),
   (("R2-mean-reversion"), 1),
   (("R3-trend"), 2),
   (("R4-trend"), 3),
   (("R6-sentiment"), 4)]

/-- Python `m.get(k, d)` on one of the fixed string→code tables. -/
def mapGetS (m : List (String × ℕ)) (k : String) (d : ℕ) : ℕ :=
  (List.lookup k m).getD d

/-- `encode_rule` from the source: `C-` prefixed rules are contrarian
(code 5), otherwise the `RULE_MAP` lookup with default 3 (R4). -/
def encode_rule (rule : String) : ℕ :=
  if pyStartsWith rule ("C-") then 5 else mapGetS RULE_MAP rule 3

/-- `coin_encoder.get(coin, coin_encoder.get("_unknown", 0))`. -/
def coinGet (enc : List (String × ℕ)) (coin : String) : ℕ :=
  ((List.lookup coin enc).orElse (fun _ => List.lookup ("_unknown") enc)).getD 0

/-- The raw scalar fields `build_features` reads from a row (after the
Python `float(...)` / `str(...)` coercions), in source order. -/
structure Feats where
  adx : ℚ
  plus_di : ℚ
  minus_di : ℚ
  side_str : String
  rsi : ℚ
  macd_hist : ℚ
  bb_width : ℚ
  atr_pct : ℚ
  regime_str : String
  rule_str : String
  coin_str : String
  galaxy : ℚ
  sentiment : ℚ
  alt_rank : ℚ
  deriving DecidableEq

/-- The field extraction half of `build_features`: every `float(row.get(..))`
coercion, in the order the source performs them, so a failing coercion
raises at the same point it does in Python. -/
def extractFeats (row : RowD) : Except String Feats := do
  let adx ← pyFloat (dgetD row ("adx") (JVal.num 25))
  let plus_di ← pyFloat (dgetD row ("plus_di") (JVal.num 20))
  let minus_di ← pyFloat (dgetD row ("minus_di") (JVal.num 20))
  let side_str := pyStr (dgetD row ("side") (JVal.str ("long")))
  let rsi ← pyFloat (dgetD row ("rsi") (JVal.num 50))
  let macd_hist ← pyFloat (dgetD row ("macd_histogram") (JVal.num 0))
  let bb_width ← pyFloat (dgetD row ("bb_width") (JVal.num (3/100)))
  let atr_pct ← pyFloat (dgetD row ("atr_pct") (JVal.num (1/100)))
  let regime_str := pyStr (dgetD row ("regime") (JVal.str ("ranging")))
  let rule_str := pyStr (dgetD row ("rule") (JVal.str ("R4-trend")))
  let coin_str := pyStr (dgetD row ("coin") (JVal.str ("BTC")))
  let galaxy ← pyFloat (dgetD row ("galaxy_score") (JVal.num 0))
  let sentiment ← pyFloat (dgetD row ("sentiment_pct") (JVal.num 50))
  let alt_rank ← pyFloat (dgetD row ("alt_rank") (JVal.num 500))
  return ⟨adx, plus_di, minus_di, side_str, rsi, macd_hist, bb_width, atr_pct,
          regime_str, rule_str, coin_str, galaxy, sentiment, alt_rank⟩

/-- Signed DI spread, line 50 of the source: positive when the directional
indicator points the same way as the trade. -/
def di_spread_of (f : Feats) : ℚ :=
  if f.side_str = ("long") then f.plus_di - f.minus_di else f.minus_di - f.plus_di

/-- The 15-element list literal returned by `build_features` (lines 68-84),
given the extracted scalars and the coin encoder. -/
def assemble (f : Feats) (coin_encoder : List (String × ℕ)) : List ℚ :=
  [f.adx,
   f.plus_di,
   f.minus_di,
   di_spread_of f,
   f.rsi,
   f.macd_hist,
   f.bb_width,
   f.atr_pct,
   (mapGetS REGIME_MAP f.regime_str 1 : ℚ),
   (mapGetS SIDE_MAP f.side_str 0 : ℚ),
   (encode_rule f.rule_str : ℚ),
   (coinGet coin_encoder f.coin_str : ℚ),
   f.galaxy,
   f.sentiment,
   1 - min f.alt_rank 1000 / 1000]

/-- `build_features(row, coin_encoder)` from the source: extraction of the
scalar fields followed by assembly of the fixed-order vector. -/
def build_features (row : RowD) (coin_encoder : List (String × ℕ)) :
    Except String (List ℚ) :=
  (extractFeats row).map (fun f => assemble f coin_encoder)

/-- The row fields that `build_features` passes through `float(...)`. -/
def numericKeys : List String :=
  [("adx"), ("plus_di"), ("minus_di"), ("rsi"), ("macd_histogram"),
   ("bb_width"), ("atr_pct"), ("galaxy_score"), ("sentiment_pct"), ("alt_rank")]

/-- Whether `float(v)` succeeds. -/
def floatOk (v : JVal) : Bool :=
  match pyFloat v with
  | .ok _ => true
  | .error _ => false

/-- A row is valid when every numeric-role field it carries converts with
`float(...)`; this is the typing §3 of the spec places on Raw Records. -/
def validRow (row : RowD) : Bool :=
  numericKeys.all (fun k =>
    match List.lookup k row with
    | some v => floatOk v
    | none => true)

/-- One physical line of a JSONL file: blank after stripping, not valid
JSON, or a parsed record. -/
inductive Line where
  | blank
  | malformed
  | json (r : RowD)

/-- `load_jsonl` from the source: keep the parsed records, silently skip
blank and malformed lines. -/
def load_jsonl (ls : List Line) : List RowD :=
  ls.filterMap (fun l =>
    match l with
    | .json r => some r
    | _ => none)

/-- A fitted classifier artifact: its known class labels and its
predict-probability function (aligned with `classes`). -/
structure Classifier where
  classes : List ℤ
  predictProba : List ℚ → List ℚ

/-- The classifier library as the external capability the spec describes:
fit and cross-validate are opaque total functions supplied by the
environment. -/
structure ClassifierCap where
  fit : List (List ℚ) → List ℤ → Classifier
  crossValidate : List (List ℚ) → List ℤ → ℕ → List ℚ

/-- `str(r.get("coin", "BTC"))`. -/
def coinOf (r : RowD) : String := pyStr (dgetD r ("coin") (JVal.str ("BTC")))

/-- Lines 121-123 of the source: sorted distinct coin symbols, each mapped
to its index, plus the reserved `_unknown` code. -/
def buildCoinEncoder (rows : List RowD) : List (String × ℕ) :=
  let coins := List.insertionSort (fun a b => a ≤ b) (rows.map coinOf).dedup
  (coins.enum.map (fun p => (p.2, p.1))) ++ [(("_unknown"), coins.length)]

/-- Result of the per-row body of the training loop (lines 129-142). -/
inductive RowStep where
  | labeled (features : List ℚ) (label : ℤ)
  | skipped
  deriving DecidableEq

/-- The label derivation of lines 132-138: explicit `won` first (cast with
`int`), else sign of `pnl`, else no label. -/
def rowLabel (row : RowD) : Except String (Option ℤ) :=
  match List.lookup ("won") row with
  | some w => (pyInt w).map some
  | none =>
    match List.lookup ("pnl") row with
    | some p => (pyFloat p).map (fun q => some (if 0 ≤ q then 1 else 0))
    | none => Except.ok none

/-- One iteration of the training loop: build features, derive the label;
a missing label or any raised exception makes the row skipped. -/
def trainRowStep (row : RowD) (enc : List (String × ℕ)) : RowStep :=
  match build_features row enc with
  | .error _ => .skipped
  | .ok features =>
    match rowLabel row with
    | .error _ => .skipped
    | .ok none => .skipped
    | .ok (some l) => .labeled features l

/-- The whole training loop: the labeled (features, label) pairs in row
order and the skipped count. -/
def processRows (rows : List RowD) (enc : List (String × ℕ)) :
    List (List ℚ × ℤ) × ℕ :=
  match rows with
  | [] => ([], 0)
  | r :: rest =>
    let acc := processRows rest enc
    match trainRowStep r enc with
    | .labeled fs l => ((fs, l) :: acc.1, acc.2)
    | .skipped => (acc.1, acc.2 + 1)

/-- `np.mean` of the fold scores. -/
def qMean (l : List ℚ) : ℚ := l.sum / l.length

/-- `round(x, 4)`.  Modelled as round-half-up on rationals; CPython rounds
half to even on binary floats, but no claim exercises a half-way value. -/
def round4 (q : ℚ) : ℚ := ((⌊q * 10000 + 1/2⌋ : ℤ) : ℚ) / 10000

/-- What a training run leaves in the model directory on success. -/
structure Artifacts where
  model : Classifier
  coin_encoder : List (String × ℕ)
  sampleCount : ℕ
  accuracy : ℚ
  cvScores : List ℚ
  skipped : ℕ

/-- The one JSON object train prints to stdout. -/
inductive TrainMsg where
  | err (msg : String)
  | good (sampleCount : ℕ) (accuracy : ℚ) (cvScores : List ℚ)
  deriving DecidableEq

/-- How a training invocation ends: a printed JSON object with an exit code
and the artifacts written, or an unhandled exception (traceback, no JSON). -/
inductive TrainOutcome where
  | printed (out : TrainMsg) (exitCode : ℕ) (written : Option Artifacts)
  | crash (exc : String)

/-- The ambient effects of one `train` invocation: whether the imports
raise, what reading the primary data file yields (`Except.error` = the
`open` call raises), the optional live file (`none` = no `--live` path,
`some none` = path given but does not exist), and the classifier library. -/
structure TrainEnv where
  importErr : Option String
  primary : Except String (List Line)
  live : Option (Option (List Line))
  cap : ClassifierCap

/-- Lines 112-114: live rows are appended only when the path is given and
exists. -/
def liveRows (env : TrainEnv) : List RowD :=
  match env.live with
  | some (some ls) => load_jsonl ls
  | _ => []

/-- Lines 116-187 of `train`, after the rows are loaded. -/
def trainBody (cap : ClassifierCap) (rows : List RowD) : TrainOutcome :=
  if rows.length < 10 then
    .printed (.err (("Too few samples: ") ++ toString rows.length ++
      (" (need >= 10)"))) 1 none
  else
    let coin_encoder := buildCoinEncoder rows
    let xy := processRows rows coin_encoder
    if xy.1.length < 10 then
      .printed (.err (("Too few valid samples after processing: ") ++
        toString xy.1.length ++ (" (skipped ") ++ toString xy.2 ++ (")"))) 1 none
    else
      let X := xy.1.map Prod.fst
      let y := xy.1.map Prod.snd
      let n_folds := min 5 (max 2 (X.length / 10))
      let cv_scores := cap.crossValidate X y n_folds
      let accuracy := qMean cv_scores
      let clf := cap.fit X y
      .printed (.good X.length (round4 accuracy) (cv_scores.map round4)) 0
        (some ⟨clf, coin_encoder, X.length, round4 accuracy,
          cv_scores.map round4, xy.2⟩)

/-- `train(data_path, live_path)`: the import guard, then the primary file
read — whose failure is not caught anywhere and so crashes — then the
guarded body. -/
def train (env : TrainEnv) : TrainOutcome :=
  match env.importErr with
  | some e =>
    .printed (.err (("Missing dependency: ") ++ e ++
      (". Run ml/setup.sh first."))) 1 none
  | none =>
    match env.primary with
    | .error e => .crash e
    | .ok pls => trainBody env.cap (load_jsonl pls ++ liveRows env)

/-- Python `s.strip()` on the character list (space, tab, CR, LF; the rarer
whitespace code points CPython also strips are outside the model). -/
def pyStrip (s : String) : String :=
  ⟨((s.data.dropWhile Char.isWhitespace).reverse.dropWhile Char.isWhitespace).reverse⟩

/-- The one JSON object the scorer prints: a rounded score with the model's
sample count, or a null score with an error string. -/
inductive ScoreMsg where
  | success (score : ℚ) (modelSamples : ℕ)
  | failure (error : String)
  deriving DecidableEq

/-- The ambient effects of one `score` invocation: whether the imports
raise, whether the model file exists, what loading the artifacts yields
(classifier, coin encoder, and the metadata sample count — `none` when the
metadata file is missing or lacks the field), the raw stdin text, and the
JSON parser for the stripped input. -/
structure ScoreEnv where
  importErr : Option String
  modelExists : Bool
  artifacts : Except String (Classifier × List (String × ℕ) × Option ℕ)
  stdin : String
  parse : String → Except String RowD

/-- The body of the big `try` block of `score` (lines 207-234): any
`Except.error` is what the `except` clause catches. -/
def scoreTry (env : ScoreEnv) : Except String ScoreMsg := do
  let (clf, coin_encoder, metaSamples) ← env.artifacts
  let input_str := pyStrip env.stdin
  if input_str = ("") then
    return ScoreMsg.failure ("Empty stdin")
  else
    let row ← env.parse input_str
    let features ← build_features row coin_encoder
    let proba := clf.predictProba features
    let score_val ←
      if (1:ℤ) ∈ clf.classes then
        match proba.get? (List.indexOf 1 clf.classes) with
        | some p => Except.ok p
        | none => Except.error ("list index out of range")
      else Except.ok (1/2)
    return ScoreMsg.success (round4 score_val) (metaSamples.getD 0)

/-- `score()` from the source with the process exit status: the import
guard, the model-file existence check, then the `try`/`except` that turns
every exception into a failure message; the exit status is always 0. -/
def score (env : ScoreEnv) : ScoreMsg × ℕ :=
  match env.importErr with
  | some e => (.failure (("Missing dependency: ") ++ e), 0)
  | none =>
    if env.modelExists then
      match scoreTry env with
      | .ok m => (m, 0)
      | .error e => (.failure e, 0)
    else (.failure ("Model not trained yet"), 0)

theorem exceptBind_ok {α β : Type} {e : Except String α} {k : α → Except String β}
    {b : β} : e >>= k = Except.ok b ↔ ∃ a, e = Except.ok a ∧ k a = Except.ok b := by
  cases e <;> simp [Bind.bind, Except.bind]

theorem exceptPure_ok {α : Type} {a b : α} :
    (pure a : Except String α) = Except.ok b ↔ a = b := by
  simp [pure, Except.pure]

theorem exceptOk_bind {α β : Type} {a : α} {k : α → Except String β} :
    (Except.ok a : Except String α) >>= k = k a := rfl

theorem floatOk_ok {v : JVal} (h : floatOk v = true) :
    ∃ q, pyFloat v = Except.ok q := by
  cases hv : pyFloat v with
  | ok q => exact ⟨q, rfl⟩
  | error e => rw [floatOk, hv] at h; cases h

theorem valid_dgetD {row : RowD} (h : validRow row = true) {k : String}
    (hk : k ∈ numericKeys) (d : ℚ) :
    ∃ q, pyFloat (dgetD row k (JVal.num d)) = Except.ok q := by
  have hall := List.all_eq_true.mp h k hk
  rw [dgetD]
  cases hl : List.lookup k row with
  | none => exact ⟨d, rfl⟩
  | some v =>
    rw [hl] at hall
    exact floatOk_ok hall

/-- On a valid row every `float(...)` coercion succeeds, so the extraction
half of `build_features` succeeds. -/
theorem extractFeats_ok_of_valid (row : RowD) (h : validRow row = true) :
    ∃ f, extractFeats row = Except.ok f := by
  obtain ⟨q1, e1⟩ := valid_dgetD h (by decide : ("adx") ∈ numericKeys) 25
  obtain ⟨q2, e2⟩ := valid_dgetD h (by decide : ("plus_di") ∈ numericKeys) 20
  obtain ⟨q3, e3⟩ := valid_dgetD h (by decide : ("minus_di") ∈ numericKeys) 20
  obtain ⟨q4, e4⟩ := valid_dgetD h (by decide : ("rsi") ∈ numericKeys) 50
  obtain ⟨q5, e5⟩ := valid_dgetD h (by decide : ("macd_histogram") ∈ numericKeys) 0
  obtain ⟨q6, e6⟩ := valid_dgetD h (by decide : ("bb_width") ∈ numericKeys) (3/100)
  obtain ⟨q7, e7⟩ := valid_dgetD h (by decide : ("atr_pct") ∈ numericKeys) (1/100)
  obtain ⟨q8, e8⟩ := valid_dgetD h (by decide : ("galaxy_score") ∈ numericKeys) 0
  obtain ⟨q9, e9⟩ := valid_dgetD h (by decide : ("sentiment_pct") ∈ numericKeys) 50
  obtain ⟨q10, e10⟩ := valid_dgetD h (by decide : ("alt_rank") ∈ numericKeys) 500
  refine ⟨⟨q1, q2, q3, pyStr (dgetD row ("side") (JVal.str ("long"))), q4, q5, q6, q7,
    pyStr (dgetD row ("regime") (JVal.str ("ranging"))),
    pyStr (dgetD row ("rule") (JVal.str ("R4-trend"))),
    pyStr (dgetD row ("coin") (JVal.str ("BTC"))), q8, q9, q10⟩, ?_⟩
  rw [extractFeats]
  simp only [e1, e2, e3, e4, e5, e6, e7, e8, e9, e10, exceptOk_bind]
  rfl

/-- Inverting a successful extraction: each scalar of `f` is exactly the
coerced row field. -/
theorem extractFeats_inv (row : RowD) (f : Feats) (h : extractFeats row = Except.ok f) :
    pyFloat (dgetD row ("adx") (JVal.num 25)) = Except.ok f.adx ∧
    pyFloat (dgetD row ("plus_di") (JVal.num 20)) = Except.ok f.plus_di ∧
    pyFloat (dgetD row ("minus_di") (JVal.num 20)) = Except.ok f.minus_di ∧
    f.side_str = pyStr (dgetD row ("side") (JVal.str ("long"))) ∧
    f.regime_str = pyStr (dgetD row ("regime") (JVal.str ("ranging"))) ∧
    f.rule_str = pyStr (dgetD row ("rule") (JVal.str ("R4-trend"))) ∧
    f.coin_str = pyStr (dgetD row ("coin") (JVal.str ("BTC"))) ∧
    pyFloat (dgetD row ("alt_rank") (JVal.num 500)) = Except.ok f.alt_rank := by
  rw [extractFeats] at h
  simp only [exceptBind_ok, exceptPure_ok] at h
  obtain ⟨a1, h1, a2, h2, a3, h3, a4, h4, a5, h5, a6, h6, a7, h7, a8, h8, a9, h9,
    a10, h10, hf⟩ := h
  subst hf
  exact ⟨h1, h2, h3, rfl, rfl, rfl, rfl, h10⟩

/-- Inverting `build_features`: success factors through the extraction and
the assembly. -/
theorem build_features_ok {row : RowD} {enc : List (String × ℕ)} {vs : List ℚ}
    (h : build_features row enc = Except.ok vs) :
    ∃ f, extractFeats row = Except.ok f ∧ vs = assemble f enc := by
  rw [build_features] at h
  cases he : extractFeats row with
  | ok f =>
    rw [he] at h
    refine ⟨f, rfl, ?_⟩
    simpa [Except.map] using h.symm
  | error e => rw [he] at h; cases h

theorem assemble_getD_3 (f : Feats) (enc : List (String × ℕ)) :
    (assemble f enc).getD 3 0 = di_spread_of f := rfl

theorem assemble_getD_9 (f : Feats) (enc : List (String × ℕ)) :
    (assemble f enc).getD 9 0 = (mapGetS SIDE_MAP f.side_str 0 : ℚ) := rfl

theorem assemble_getD_14 (f : Feats) (enc : List (String × ℕ)) :
    (assemble f enc).getD 14 0 = 1 - min f.alt_rank 1000 / 1000 := rfl

theorem feats_plus_di {row : RowD} {f : Feats} {p : ℚ}
    (hf : extractFeats row = Except.ok f)
    (hp : List.lookup ("plus_di") row = some (JVal.num p)) : f.plus_di = p := by
  have h := (extractFeats_inv row f hf).2.1
  simp only [dgetD, hp, Option.getD_some, pyFloat, Except.ok.injEq] at h
  exact h.symm

theorem feats_minus_di {row : RowD} {f : Feats} {m : ℚ}
    (hf : extractFeats row = Except.ok f)
    (hm : List.lookup ("minus_di") row = some (JVal.num m)) : f.minus_di = m := by
  have h := (extractFeats_inv row f hf).2.2.1
  simp only [dgetD, hm, Option.getD_some, pyFloat, Except.ok.injEq] at h
  exact h.symm

theorem feats_side_str {row : RowD} {f : Feats} {s : String}
    (hf : extractFeats row = Except.ok f)
    (hs : List.lookup ("side") row = some (JVal.str s)) : f.side_str = s := by
  have h := (extractFeats_inv row f hf).2.2.2.1
  simp only [dgetD, hs, Option.getD_some, pyStr] at h
  exact h

theorem feats_alt_rank {row : RowD} {f : Feats} {a : ℚ}
    (hf : extractFeats row = Except.ok f)
    (ha : List.lookup ("alt_rank") row = some (JVal.num a)) : f.alt_rank = a := by
  have h := (extractFeats_inv row f hf).2.2.2.2.2.2.2
  simp only [dgetD, ha, Option.getD_some, pyFloat, Except.ok.injEq] at h
  exact h.symm

/-- `SIDE_MAP.get(s, 0)` falls back to 0 when `s` is neither side key. -/
theorem sideCode_fallback {s : String} (h1 : s ≠ ("long")) (h2 : s ≠ ("short")) :
    mapGetS SIDE_MAP s 0 = 0 := by
  have b1 : (s == ("long")) = false := beq_eq_false_iff_ne.mpr h1
  have b2 : (s == ("short")) = false := beq_eq_false_iff_ne.mpr h2
  simp [mapGetS, SIDE_MAP, List.lookup, b1, b2]

/-- C2: for every raw record whose present numeric-role fields are numeric
(the Raw-Record typing of the spec), the feature encoder succeeds and
returns exactly 15 rationals; on the all-defaults record the vector is the
documented values in the documented order. -/
theorem C2_build_features_shape :
    (∀ (row : RowD) (enc : List (String × ℕ)), validRow row = true →
      ∃ vs : List ℚ, build_features row enc = Except.ok vs ∧ vs.length = 15) ∧
    build_features [] [] =
      Except.ok [25, 20, 20, 0, 50, 0, 3/100, 1/100, 1, 0, 3, 0, 0, 50, 1/2] := by
  constructor
  · intro row enc h
    obtain ⟨f, hf⟩ := extractFeats_ok_of_valid row h
    refine ⟨assemble f enc, ?_, rfl⟩
    rw [build_features, hf]
    rfl
  · simp +decide [build_features, extractFeats, dgetD, pyFloat, pyStr, assemble,
      di_spread_of, mapGetS, coinGet, encode_rule, pyStartsWith, REGIME_MAP,
      SIDE_MAP, RULE_MAP, List.lookup, Except.map, Option.getD, List.isPrefixOf,
      exceptOk_bind]
    norm_num

/-- C2 witness: a concrete valid record encodes to a 15-element vector. -/
theorem C2_build_features_shape_witness :
    ∃ vs : List ℚ,
      build_features [(("adx"), JVal.num 30), (("side"), JVal.str ("short"))]
        [(("BTC"), 0)] = Except.ok vs ∧ vs.length = 15 :=
  C2_build_features_shape.1
    [(("adx"), JVal.num 30), (("side"), JVal.str ("short"))] [(("BTC"), 0)]
    (by decide)

/-- C6: the rule encoder maps every `C-` prefixed identifier to 5, the five
table entries to their codes, and everything else to the R4 fallback 3;
in particular C-anything→5, R3-trend→2, unknown-rule→3. -/
theorem C6_encode_rule_total :
    (∀ s : String, encode_rule s =
      if pyStartsWith s ("C-") then 5
      else if s = ("R1-mean-reversion") then 0
      else if s = ("R2-mean-reversion") then 1
      else if s = ("R3-trend") then 2
      else if s = ("R4-trend") then 3
      else if s = ("R6-sentiment") then 4
      else 3) ∧
    encode_rule ("C-anything") = 5 ∧
    encode_rule ("R3-trend") = 2 ∧
    encode_rule ("unknown-rule") = 3 := by
  refine ⟨fun s => ?_, by decide, by decide, by decide⟩
  by_cases hC : pyStartsWith s ("C-") = true
  · simp [encode_rule, hC]
  · by_cases h1 : s = ("R1-mean-reversion")
    · subst h1; decide
    · by_cases h2 : s = ("R2-mean-reversion")
      · subst h2; decide
      · by_cases h3 : s = ("R3-trend")
        · subst h3; decide
        · by_cases h4 : s = ("R4-trend")
          · subst h4; decide
          · by_cases h5 : s = ("R6-sentiment")
            · subst h5; decide
            · have b1 := beq_eq_false_iff_ne.mpr h1
              have b2 := beq_eq_false_iff_ne.mpr h2
              have b3 := beq_eq_false_iff_ne.mpr h3
              have b4 := beq_eq_false_iff_ne.mpr h4
              have b5 := beq_eq_false_iff_ne.mpr h5
              simp [encode_rule, hC, mapGetS, RULE_MAP, List.lookup, b1, b2, b3,
                b4, b5, h1, h2, h3, h4, h5]

/-- C3 counterexample: the claim says `alt_rank_norm` always lies in [0,1],
but the code clamps only above, so `alt_rank = -1000` encodes to 2 > 1. -/
theorem C3_cex_alt_rank_norm_above_one :
    ∃ vs : List ℚ,
      build_features [(("alt_rank"), JVal.num (-1000))] [] = Except.ok vs ∧
        1 < vs.getD 14 0 := by
  obtain ⟨f, hf⟩ := extractFeats_ok_of_valid [(("alt_rank"), JVal.num (-1000))]
    (by decide)
  refine ⟨assemble f [], by rw [build_features, hf]; rfl, ?_⟩
  rw [assemble_getD_14, feats_alt_rank (a := -1000) hf (by decide)]
  norm_num [min_def]

/-- C3 amended: `alt_rank_norm = 1 - min(alt_rank, 1000)/1000` always; it
lies in [0,1] whenever `alt_rank ≥ 0` (the code clamps only at the top, so
a negative rank exceeds 1); rank 0 ↦ 1, rank 1000 ↦ 0, rank 5000 ↦ 0. -/
theorem C3_alt_rank_norm (row : RowD) (enc : List (String × ℕ)) (a : ℚ)
    (vs : List ℚ) (ha : List.lookup ("alt_rank") row = some (JVal.num a))
    (h : build_features row enc = Except.ok vs) :
    vs.getD 14 0 = 1 - min a 1000 / 1000 ∧
    (0 ≤ a → 0 ≤ vs.getD 14 0 ∧ vs.getD 14 0 ≤ 1) ∧
    (a = 0 → vs.getD 14 0 = 1) ∧
    (a = 1000 → vs.getD 14 0 = 0) ∧
    (a = 5000 → vs.getD 14 0 = 0) := by
  obtain ⟨f, hf, rfl⟩ := build_features_ok h
  rw [assemble_getD_14, feats_alt_rank hf ha]
  refine ⟨rfl, ?_, ?_, ?_, ?_⟩
  · intro ha0
    have hm1 : min a 1000 ≤ 1000 := min_le_right a 1000
    have hm0 : (0:ℚ) ≤ min a 1000 := le_min ha0 (by norm_num)
    constructor <;> linarith
  · rintro rfl; norm_num
  · rintro rfl; norm_num
  · rintro rfl; norm_num [min_def]

/-- C3 witness: a record with `alt_rank = 0` encodes the norm 1. -/
theorem C3_alt_rank_norm_witness :
    ∃ vs : List ℚ,
      build_features [(("alt_rank"), JVal.num 0)] [] = Except.ok vs ∧
        vs.getD 14 0 = 1 := by
  obtain ⟨f, hf⟩ := extractFeats_ok_of_valid [(("alt_rank"), JVal.num 0)] (by decide)
  refine ⟨assemble f [], by rw [build_features, hf]; rfl, ?_⟩
  exact (C3_alt_rank_norm [(("alt_rank"), JVal.num 0)] [] 0 (assemble f [])
    (by decide) (by rw [build_features, hf]; rfl)).2.2.1 rfl

/-- C7: `di_spread` (slot 3) is `plus_di - minus_di` for long records and
`minus_di - plus_di` for short ones, hence positive whenever the
directional indicators favor the trade. -/
theorem C7_di_spread (row : RowD) (enc : List (String × ℕ)) (p m : ℚ)
    (vs : List ℚ)
    (hp : List.lookup ("plus_di") row = some (JVal.num p))
    (hm : List.lookup ("minus_di") row = some (JVal.num m))
    (h : build_features row enc = Except.ok vs) :
    (List.lookup ("side") row = some (JVal.str ("long")) →
      vs.getD 3 0 = p - m ∧ (m < p → 0 < vs.getD 3 0)) ∧
    (List.lookup ("side") row = some (JVal.str ("short")) →
      vs.getD 3 0 = m - p ∧ (p < m → 0 < vs.getD 3 0)) := by
  obtain ⟨f, hf, rfl⟩ := build_features_ok h
  rw [assemble_getD_3]
  constructor
  · intro hside
    have hss : f.side_str = ("long") := feats_side_str hf hside
    have hd : di_spread_of f = p - m := by
      rw [di_spread_of, feats_plus_di hf hp, feats_minus_di hf hm, hss]
      simp
    rw [hd]
    exact ⟨rfl, fun hlt => by linarith⟩
  · intro hside
    have hss : f.side_str = ("short") := feats_side_str hf hside
    have hd : di_spread_of f = m - p := by
      rw [di_spread_of, feats_plus_di hf hp, feats_minus_di hf hm, hss]
      simp
    rw [hd]
    exact ⟨rfl, fun hlt => by linarith⟩

/-- C7 witness: a long record with `plus_di = 30 > minus_di = 10` has
positive spread 20. -/
theorem C7_di_spread_witness :
    ∃ vs : List ℚ,
      build_features
        [(("side"), JVal.str ("long")), (("plus_di"), JVal.num 30),
         (("minus_di"), JVal.num 10)] [] = Except.ok vs ∧
      vs.getD 3 0 = 30 - 10 ∧ 0 < vs.getD 3 0 := by
  obtain ⟨f, hf⟩ := extractFeats_ok_of_valid
    [(("side"), JVal.str ("long")), (("plus_di"), JVal.num 30),
     (("minus_di"), JVal.num 10)] (by decide)
  have hb : build_features
      [(("side"), JVal.str ("long")), (("plus_di"), JVal.num 30),
       (("minus_di"), JVal.num 10)] [] = Except.ok (assemble f []) := by
    rw [build_features, hf]; rfl
  have h := (C7_di_spread _ [] 30 10 (assemble f []) (by decide) (by decide) hb).1
    (by decide)
  exact ⟨assemble f [], hb, h.1, h.2 (by norm_num)⟩

/-- C10: for any side string other than exactly long, `di_spread` uses the
short formula while the side code still falls back to the long code 0
unless the side is exactly short — the two features disagree on unknown
side strings. -/
theorem C10_side_feature_disagreement (row : RowD) (enc : List (String × ℕ))
    (s : String) (p m : ℚ) (vs : List ℚ)
    (hs : List.lookup ("side") row = some (JVal.str s))
    (hp : List.lookup ("plus_di") row = some (JVal.num p))
    (hm : List.lookup ("minus_di") row = some (JVal.num m))
    (hlong : s ≠ ("long"))
    (h : build_features row enc = Except.ok vs) :
    vs.getD 3 0 = m - p ∧ (s ≠ ("short") → vs.getD 9 0 = 0) := by
  obtain ⟨f, hf, rfl⟩ := build_features_ok h
  have hss : f.side_str = s := feats_side_str hf hs
  constructor
  · rw [assemble_getD_3, di_spread_of, feats_plus_di hf hp, feats_minus_di hf hm,
      hss, if_neg hlong]
  · intro hshort
    rw [assemble_getD_9, hss, sideCode_fallback hlong hshort]
    norm_num

/-- C10 witness: side `LONG` (uppercase) gets the short spread formula but
the long side code. -/
theorem C10_side_feature_disagreement_witness :
    ∃ vs : List ℚ,
      build_features
        [(("side"), JVal.str ("LONG")), (("plus_di"), JVal.num 30),
         (("minus_di"), JVal.num 10)] [] = Except.ok vs ∧
      vs.getD 3 0 = 10 - 30 ∧ vs.getD 9 0 = 0 := by
  obtain ⟨f, hf⟩ := extractFeats_ok_of_valid
    [(("side"), JVal.str ("LONG")), (("plus_di"), JVal.num 30),
     (("minus_di"), JVal.num 10)] (by decide)
  have hb : build_features
      [(("side"), JVal.str ("LONG")), (("plus_di"), JVal.num 30),
       (("minus_di"), JVal.num 10)] [] = Except.ok (assemble f []) := by
    rw [build_features, hf]; rfl
  have h := C10_side_feature_disagreement _ [] ("LONG") 30 10 (assemble f [])
    (by decide) (by decide) (by decide) (by decide) hb
  exact ⟨assemble f [], hb, h.1, h.2 (by decide)⟩

/-- C4: the training label prefers an explicit `won` (cast to an integer,
overriding any `pnl`), else is the sign of `pnl` (1 iff pnl ≥ 0), else the
row is skipped; a failing feature build or label cast also skips the row;
the skipped counter counts exactly the skipped rows. -/
theorem C4_label_derivation :
    (∀ (row : RowD) (enc : List (String × ℕ)) (fs : List ℚ) (w : JVal) (l : ℤ),
      build_features row enc = Except.ok fs →
      List.lookup ("won") row = some w → pyInt w = Except.ok l →
      trainRowStep row enc = RowStep.labeled fs l) ∧
    (∀ (row : RowD) (enc : List (String × ℕ)) (fs : List ℚ) (q : ℚ),
      build_features row enc = Except.ok fs →
      List.lookup ("won") row = none →
      List.lookup ("pnl") row = some (JVal.num q) →
      trainRowStep row enc = RowStep.labeled fs (if 0 ≤ q then 1 else 0)) ∧
    (∀ (row : RowD) (enc : List (String × ℕ)),
      List.lookup ("won") row = none → List.lookup ("pnl") row = none →
      trainRowStep row enc = RowStep.skipped) ∧
    (∀ (row : RowD) (enc : List (String × ℕ)) (e : String),
      build_features row enc = Except.error e →
      trainRowStep row enc = RowStep.skipped) ∧
    (∀ (row : RowD) (enc : List (String × ℕ)) (w : JVal) (e : String),
      List.lookup ("won") row = some w → pyInt w = Except.error e →
      trainRowStep row enc = RowStep.skipped) ∧
    (∀ (rows : List RowD) (enc : List (String × ℕ)),
      (processRows rows enc).2 =
        (rows.filter (fun r => trainRowStep r enc == RowStep.skipped)).length) := by
  refine ⟨?_, ?_, ?_, ?_, ?_, ?_⟩
  · intro row enc fs w l hb hw hi
    simp [trainRowStep, hb, rowLabel, hw, hi, Except.map]
  · intro row enc fs q hb hw hp
    simp [trainRowStep, hb, rowLabel, hw, hp, pyFloat, Except.map]
  · intro row enc hw hp
    rcases hb : build_features row enc with e | fs <;>
      simp [trainRowStep, hb, rowLabel, hw, hp]
  · intro row enc e hb
    simp [trainRowStep, hb]
  · intro row enc w e hw hi
    rcases hb : build_features row enc with e2 | fs <;>
      simp [trainRowStep, hb, rowLabel, hw, hi, Except.map]
  · intro rows enc
    induction rows with
    | nil => rfl
    | cons r rest ih =>
      rcases ht : trainRowStep r enc with ⟨fs, l⟩ | _ <;>
        simp [processRows, ht, List.filter_cons, ih]

def rowWon : RowD := [(("won"), JVal.num 1), (("pnl"), JVal.num (-100))]

def rowPnl : RowD := [(("pnl"), JVal.num (-1/2))]

def rowBad : RowD := [(("won"), JVal.num 1), (("adx"), JVal.str ("boom"))]

def rowCast : RowD := [(("won"), JVal.str ("x"))]

/-- C4 witness: won=1 beats pnl=-100; pnl=-0.5 labels 0; a row with
neither field, a row whose feature build raises, and a row whose won cast
raises are all skipped and counted. -/
theorem C4_label_derivation_witness :
    (∃ fs, trainRowStep rowWon [] = RowStep.labeled fs 1) ∧
    (∃ fs, trainRowStep rowPnl [] = RowStep.labeled fs 0) ∧
    trainRowStep ([] : RowD) [] = RowStep.skipped ∧
    trainRowStep rowBad [] = RowStep.skipped ∧
    trainRowStep rowCast [] = RowStep.skipped ∧
    (processRows [([] : RowD), rowBad] []).2 = 2 := by
  obtain ⟨f1, hf1⟩ := extractFeats_ok_of_valid rowWon (by decide)
  have hb1 : build_features rowWon [] = Except.ok (assemble f1 []) := by
    rw [build_features, hf1]; rfl
  obtain ⟨f2, hf2⟩ := extractFeats_ok_of_valid rowPnl (by decide)
  have hb2 : build_features rowPnl [] = Except.ok (assemble f2 []) := by
    rw [build_features, hf2]; rfl
  have hbad : trainRowStep rowBad [] = RowStep.skipped :=
    C4_label_derivation.2.2.2.1 rowBad []
      ("could not convert string to float: boom") rfl
  have hempty : trainRowStep ([] : RowD) [] = RowStep.skipped :=
    C4_label_derivation.2.2.1 ([] : RowD) [] rfl rfl
  refine ⟨⟨assemble f1 [], ?_⟩, ⟨assemble f2 [], ?_⟩, hempty, hbad, ?_, ?_⟩
  · exact C4_label_derivation.1 rowWon [] (assemble f1 []) (JVal.num 1) 1 hb1 rfl
      (by simp [pyInt])
  · have h := C4_label_derivation.2.1 rowPnl [] (assemble f2 []) (-1/2) hb2 rfl rfl
    rw [h]
    norm_num
  · exact C4_label_derivation.2.2.2.2.1 rowCast []
      (JVal.str ("x")) ("invalid literal for int: x") rfl rfl
  · have h := C4_label_derivation.2.2.2.2.2 [([] : RowD), rowBad] []
    rw [h]
    simp [List.filter_cons, hempty, hbad]

/-- C5: with imports fine and the primary file readable, fewer than 10
loaded rows print the too-few-samples error with exit 1 and nothing
written; 10+ rows but fewer than 10 surviving encoding print the
too-few-valid-samples error with exit 1 and nothing written; 10+ surviving
rows fit and persist a model with exit 0. -/
theorem C5_training_thresholds (env : TrainEnv) (pls : List Line)
    (hi : env.importErr = none) (hp : env.primary = Except.ok pls) :
    train env = trainBody env.cap (load_jsonl pls ++ liveRows env) ∧
    (∀ (cap : ClassifierCap) (rows : List RowD),
      (rows.length < 10 →
        trainBody cap rows = TrainOutcome.printed
          (.err (("Too few samples: ") ++ toString rows.length ++
            (" (need >= 10)"))) 1 none) ∧
      (10 ≤ rows.length →
        (processRows rows (buildCoinEncoder rows)).1.length < 10 →
        trainBody cap rows = TrainOutcome.printed
          (.err (("Too few valid samples after processing: ") ++
            toString (processRows rows (buildCoinEncoder rows)).1.length ++
            (" (skipped ") ++
            toString (processRows rows (buildCoinEncoder rows)).2 ++ (")"))) 1
          none) ∧
      (10 ≤ rows.length →
        10 ≤ (processRows rows (buildCoinEncoder rows)).1.length →
        ∃ (acc : ℚ) (cvs : List ℚ) (arts : Artifacts),
          trainBody cap rows = TrainOutcome.printed
            (.good (processRows rows (buildCoinEncoder rows)).1.length acc cvs)
            0 (some arts) ∧
          arts.sampleCount =
            (processRows rows (buildCoinEncoder rows)).1.length)) := by
  constructor
  · simp [train, hi, hp]
  · intro cap rows
    refine ⟨?_, ?_, ?_⟩
    · intro h
      unfold trainBody
      rw [if_pos h]
    · intro h1 h2
      unfold trainBody
      rw [if_neg (by omega)]
      simp only [if_pos h2]
    · intro h1 h2
      unfold trainBody
      rw [if_neg (by omega)]
      simp only [if_neg
        (by omega : ¬ (processRows rows (buildCoinEncoder rows)).1.length < 10)]
      simp only [List.length_map]
      exact ⟨_, _, _, rfl, rfl⟩

/-- A trivial stand-in classifier library for concrete runs. -/
def capW : ClassifierCap :=
  ⟨fun _ _ => ⟨[0, 1], fun _ => [1/2, 1/2]⟩, fun _ _ _ => [1/2]⟩

def mkWonLine : Line := Line.json [(("won"), JVal.num 1)]

def envFew : TrainEnv := ⟨none, Except.ok (List.replicate 9 mkWonLine), none, capW⟩

def envInvalid : TrainEnv :=
  ⟨none, Except.ok (List.replicate 10 (Line.json [])), none, capW⟩

def envGood : TrainEnv :=
  ⟨none, Except.ok (List.replicate 10 mkWonLine), none, capW⟩

/-- C5 witness: 9 rows error out, 10 unlabeled rows error out after
encoding, 10 labeled rows train and persist. -/
theorem C5_training_thresholds_witness :
    train envFew = TrainOutcome.printed
      (.err ("Too few samples: 9 (need >= 10)")) 1 none ∧
    train envInvalid = TrainOutcome.printed
      (.err ("Too few valid samples after processing: 0 (skipped 10)")) 1 none ∧
    (∃ (acc : ℚ) (cvs : List ℚ) (arts : Artifacts),
      train envGood = TrainOutcome.printed (.good 10 acc cvs) 0 (some arts)) := by
  refine ⟨?_, ?_, ?_⟩
  · have h := C5_training_thresholds envFew (List.replicate 9 mkWonLine) rfl rfl
    have ha := (h.2 envFew.cap
      (load_jsonl (List.replicate 9 mkWonLine) ++ liveRows envFew)).1 (by decide)
    rw [h.1, ha]
    have hmsg : (("Too few samples: ") ++
        toString (load_jsonl (List.replicate 9 mkWonLine) ++ liveRows envFew).length
        ++ (" (need >= 10)")) = ("Too few samples: 9 (need >= 10)") := by decide
    rw [hmsg]
  · have h := C5_training_thresholds envInvalid
      (List.replicate 10 (Line.json [])) rfl rfl
    have ha := (h.2 envInvalid.cap
      (load_jsonl (List.replicate 10 (Line.json [])) ++ liveRows envInvalid)).2.1
      (by decide) (by decide)
    rw [h.1, ha]
    have hmsg : (("Too few valid samples after processing: ") ++
        toString (processRows
          (load_jsonl (List.replicate 10 (Line.json [])) ++ liveRows envInvalid)
          (buildCoinEncoder (load_jsonl (List.replicate 10 (Line.json [])) ++
            liveRows envInvalid))).1.length ++
        (" (skipped ") ++
        toString (processRows
          (load_jsonl (List.replicate 10 (Line.json [])) ++ liveRows envInvalid)
          (buildCoinEncoder (load_jsonl (List.replicate 10 (Line.json [])) ++
            liveRows envInvalid))).2 ++ (")")) =
        ("Too few valid samples after processing: 0 (skipped 10)") := by decide
    rw [hmsg]
  · have h := C5_training_thresholds envGood (List.replicate 10 mkWonLine) rfl rfl
    obtain ⟨acc, cvs, arts, heq, -⟩ := (h.2 envGood.cap
      (load_jsonl (List.replicate 10 mkWonLine) ++ liveRows envGood)).2.2
      (by decide) (by decide)
    have hL : (processRows
        (load_jsonl (List.replicate 10 mkWonLine) ++ liveRows envGood)
        (buildCoinEncoder (load_jsonl (List.replicate 10 mkWonLine) ++
          liveRows envGood))).1.length = 10 := by decide
    rw [hL] at heq
    exact ⟨acc, cvs, arts, by rw [h.1, heq]⟩

def envCrash : TrainEnv :=
  ⟨none, Except.error ("FileNotFoundError: missing.jsonl"), none, capW⟩

/-- C9 counterexample: a nonexistent primary data file makes `train` end in
an unhandled exception with no JSON printed — `load_jsonl`'s `open` sits
outside every `try` block — refuting the claim that every training failure
path emits well-formed JSON. -/
theorem C9_cex_missing_file_crashes :
    train envCrash = TrainOutcome.crash ("FileNotFoundError: missing.jsonl") ∧
    ∀ (m : TrainMsg) (ec : ℕ) (w : Option Artifacts),
      train envCrash ≠ TrainOutcome.printed m ec w := by
  have h0 : train envCrash =
      TrainOutcome.crash ("FileNotFoundError: missing.jsonl") := rfl
  refine ⟨h0, fun m ec w h => ?_⟩
  rw [h0] at h
  exact TrainOutcome.noConfusion h

/-- C9 amended: the trainer reports missing dependencies as a structured
JSON error, and every printed error carries exit status 1 with no artifacts
written; but a failing primary-file read raises an unhandled exception
(crash, no JSON) instead of a structured error. -/
theorem C9_train_error_reporting (env : TrainEnv) :
    (∀ e, env.importErr = some e →
      train env = TrainOutcome.printed
        (.err (("Missing dependency: ") ++ e ++ (". Run ml/setup.sh first.")))
        1 none) ∧
    (∀ e, env.importErr = none → env.primary = Except.error e →
      train env = TrainOutcome.crash e) ∧
    (∀ msg ec w, train env = TrainOutcome.printed (TrainMsg.err msg) ec w →
      ec = 1 ∧ w = none) := by
  refine ⟨?_, ?_, ?_⟩
  · intro e he
    simp [train, he]
  · intro e hi hp
    simp [train, hi, hp]
  · intro msg ec w h
    rcases hi : env.importErr with _ | e
    · rcases hp : env.primary with e2 | pls
      · simp only [train, hi, hp] at h
        exact TrainOutcome.noConfusion h
      · simp only [train, hi, hp] at h
        simp only [trainBody] at h
        split_ifs at h with h1 h2
        · simp only [TrainOutcome.printed.injEq] at h
          exact ⟨h.2.1.symm, h.2.2.symm⟩
        · simp only [TrainOutcome.printed.injEq] at h
          exact ⟨h.2.1.symm, h.2.2.symm⟩
        · simp only [TrainOutcome.printed.injEq] at h
          exact absurd h.1 (by simp)
    · simp only [train, hi] at h
      simp only [TrainOutcome.printed.injEq] at h
      exact ⟨h.2.1.symm, h.2.2.symm⟩

def envImp : TrainEnv :=
  ⟨some ("No module named sklearn"), Except.ok [], none, capW⟩

/-- C9 witness: a missing dependency prints the structured message with
exit 1 and nothing written; a failing file read crashes. -/
theorem C9_train_error_reporting_witness :
    train envImp = TrainOutcome.printed
      (.err ("Missing dependency: No module named sklearn. Run ml/setup.sh first."))
      1 none ∧
    train envCrash = TrainOutcome.crash ("FileNotFoundError: missing.jsonl") ∧
    ((1:ℕ) = 1 ∧ (none : Option Artifacts) = none) := by
  have h1 := (C9_train_error_reporting envImp).1 ("No module named sklearn") rfl
  have hmsg : (("Missing dependency: ") ++ ("No module named sklearn") ++
      (". Run ml/setup.sh first.")) =
      ("Missing dependency: No module named sklearn. Run ml/setup.sh first.") := by
    decide
  rw [hmsg] at h1
  refine ⟨h1, (C9_train_error_reporting envCrash).2.1
    ("FileNotFoundError: missing.jsonl") rfl rfl, ?_⟩
  exact (C9_train_error_reporting envImp).2.2
    ("Missing dependency: No module named sklearn. Run ml/setup.sh first.") 1 none
    h1

/-- C1: scoring always exits 0 and always yields a structured message; the
documented failure paths — missing dependency, missing model file, empty or
whitespace stdin, unreadable artifacts, malformed input JSON — each yield
a null score with the documented error string. -/
theorem C1_score_never_crashes (env : ScoreEnv) :
    (score env).2 = 0 ∧
    (∀ e, env.importErr = some e →
      score env = (ScoreMsg.failure (("Missing dependency: ") ++ e), 0)) ∧
    (env.importErr = none → env.modelExists = false →
      score env = (ScoreMsg.failure ("Model not trained yet"), 0)) ∧
    (∀ clf enc ms, env.importErr = none → env.modelExists = true →
      env.artifacts = Except.ok (clf, enc, ms) → pyStrip env.stdin = ("") →
      score env = (ScoreMsg.failure ("Empty stdin"), 0)) ∧
    (∀ e, env.importErr = none → env.modelExists = true →
      env.artifacts = Except.error e →
      score env = (ScoreMsg.failure e, 0)) ∧
    (∀ clf enc ms e, env.importErr = none → env.modelExists = true →
      env.artifacts = Except.ok (clf, enc, ms) → pyStrip env.stdin ≠ ("") →
      env.parse (pyStrip env.stdin) = Except.error e →
      score env = (ScoreMsg.failure e, 0)) := by
  refine ⟨?_, ?_, ?_, ?_, ?_, ?_⟩
  · rcases hi : env.importErr with _ | e
    · rcases hm : env.modelExists
      · simp [score, hi, hm]
      · rcases ht : scoreTry env with e | m <;> simp [score, hi, hm, ht]
    · simp [score, hi]
  · intro e he
    simp [score, he]
  · intro hi hm
    simp [score, hi, hm]
  · intro clf enc ms hi hm hart hstrip
    have ht : scoreTry env = Except.ok (ScoreMsg.failure ("Empty stdin")) := by
      simp only [scoreTry, hart, exceptOk_bind]
      simp [hstrip, pure, Except.pure]
    simp [score, hi, hm, ht]
  · intro e hi hm hart
    have ht : scoreTry env = Except.error e := by
      simp [scoreTry, hart, Bind.bind, Except.bind]
    simp [score, hi, hm, ht]
  · intro clf enc ms e hi hm hart hne hparse
    have ht : scoreTry env = Except.error e := by
      simp only [scoreTry, hart, exceptOk_bind]
      simp [hne, hparse, Bind.bind, Except.bind]
    simp [score, hi, hm, ht]

def clfW : Classifier := ⟨[0, 1], fun _ => [3/10, 7/10]⟩

def envImpS : ScoreEnv :=
  ⟨some ("No module named joblib"), true, Except.ok (clfW, [], none), (""),
   fun _ => Except.ok []⟩

def envNoModel : ScoreEnv :=
  ⟨none, false, Except.ok (clfW, [], none), (""), fun _ => Except.ok []⟩

def envEmpty : ScoreEnv :=
  ⟨none, true, Except.ok (clfW, [], some 5), ("  \n"), fun _ => Except.ok []⟩

def envArtsBad : ScoreEnv :=
  ⟨none, true, Except.error ("EOFError"), ("x"), fun _ => Except.ok []⟩

def envParseBad : ScoreEnv :=
  ⟨none, true, Except.ok (clfW, [], none), ("notjson"),
   fun _ => Except.error ("Expecting value: line 1 column 1 (char 0)")⟩

/-- C1 witness: each failure path at a concrete environment. -/
theorem C1_score_never_crashes_witness :
    (score envNoModel).2 = 0 ∧
    score envImpS = (ScoreMsg.failure ("Missing dependency: No module named joblib"), 0) ∧
    score envNoModel = (ScoreMsg.failure ("Model not trained yet"), 0) ∧
    score envEmpty = (ScoreMsg.failure ("Empty stdin"), 0) ∧
    score envArtsBad = (ScoreMsg.failure ("EOFError"), 0) ∧
    score envParseBad =
      (ScoreMsg.failure ("Expecting value: line 1 column 1 (char 0)"), 0) := by
  refine ⟨(C1_score_never_crashes envNoModel).1, ?_, ?_, ?_, ?_, ?_⟩
  · have h := (C1_score_never_crashes envImpS).2.1 ("No module named joblib") rfl
    have hmsg : (("Missing dependency: ") ++ ("No module named joblib")) =
        ("Missing dependency: No module named joblib") := by decide
    rw [hmsg] at h
    exact h
  · exact (C1_score_never_crashes envNoModel).2.2.1 rfl rfl
  · exact (C1_score_never_crashes envEmpty).2.2.2.1 clfW [] (some 5) rfl rfl rfl
      (by decide)
  · exact (C1_score_never_crashes envArtsBad).2.2.2.2.1 ("EOFError") rfl rfl rfl
  · exact (C1_score_never_crashes envParseBad).2.2.2.2.2 clfW [] none
      ("Expecting value: line 1 column 1 (char 0)") rfl rfl rfl (by decide) rfl

/-- C8: on the happy path the emitted score is the class-1 probability
rounded to 4 decimals with the persisted sample count (0 when metadata is
missing); when label 1 is not among the classes, the neutral 0.5 is
emitted. -/
theorem C8_score_happy_path (env : ScoreEnv) (clf : Classifier)
    (enc : List (String × ℕ)) (ms : Option ℕ) (row : RowD) (fs : List ℚ)
    (hi : env.importErr = none) (hm : env.modelExists = true)
    (hart : env.artifacts = Except.ok (clf, enc, ms))
    (hne : pyStrip env.stdin ≠ (""))
    (hparse : env.parse (pyStrip env.stdin) = Except.ok row)
    (hbf : build_features row enc = Except.ok fs) :
    (∀ p, (1:ℤ) ∈ clf.classes →
      (clf.predictProba fs).get? (List.indexOf 1 clf.classes) = some p →
      score env = (ScoreMsg.success (round4 p) (ms.getD 0), 0)) ∧
    ((1:ℤ) ∉ clf.classes →
      score env = (ScoreMsg.success (1/2) (ms.getD 0), 0)) := by
  constructor
  · intro p hmem hp
    have ht : scoreTry env = Except.ok (ScoreMsg.success (round4 p) (ms.getD 0)) := by
      simp only [scoreTry, hart, exceptOk_bind]
      rw [List.get?_eq_getElem?] at hp
      simp [hne, hparse, hbf, hmem, hp, exceptOk_bind, pure, Except.pure]
    simp [score, hi, hm, ht]
  · intro hmem
    have ht : scoreTry env = Except.ok (ScoreMsg.success (1/2) (ms.getD 0)) := by
      simp only [scoreTry, hart, exceptOk_bind]
      simp [hne, hparse, hbf, hmem, exceptOk_bind, Functor.map, Except.map,
        pure, Except.pure]
      rw [round4]
      norm_num
    simp [score, hi, hm, ht]

def clfW1 : Classifier := ⟨[0], fun _ => [1]⟩

def envScoreW : ScoreEnv :=
  ⟨none, true, Except.ok (clfW, [], some 5), ("x"), fun _ => Except.ok []⟩

def envScoreW1 : ScoreEnv :=
  ⟨none, true, Except.ok (clfW1, [], none), ("x"), fun _ => Except.ok []⟩

/-- C8 witness: a two-class model emits its class-1 probability rounded,
with the metadata sample count; a one-class model emits the neutral 0.5
with sample count 0. -/
theorem C8_score_happy_path_witness :
    score envScoreW = (ScoreMsg.success (round4 (7/10)) 5, 0) ∧
    score envScoreW1 = (ScoreMsg.success (1/2) 0, 0) := by
  obtain ⟨f, hf⟩ := extractFeats_ok_of_valid ([] : RowD) (by decide)
  have hbf : build_features ([] : RowD) [] = Except.ok (assemble f []) := by
    rw [build_features, hf]
    rfl
  constructor
  · exact (C8_score_happy_path envScoreW clfW [] (some 5) [] (assemble f [])
      rfl rfl rfl (by decide) rfl hbf).1 (7/10) (by decide) rfl
  · exact (C8_score_happy_path envScoreW1 clfW1 [] none [] (assemble f [])
      rfl rfl rfl (by decide) rfl hbf).2 (by decide)

end Scorer
